import Mathlib

/-
Verification of the incremental synchronization engine of the aicook
repository (Handler.py, FileHandler.py, embedding_pipeline.py).

The Python sources are shallowly embedded: the SQLite change-record table
and the Chroma collection become explicit stores (String to Option maps),
filesystem access becomes a snapshot function from paths to file entries,
and the external collaborators (the genai embedding backend and the
format-specific parsers) become oracle fields of an environment record.
Side effects that the claims count (record upserts and deletes, index adds
and deletes, embedding calls, handler invocations) are returned as an
explicit trace.
-/

namespace AiCook

/-- Observable side effects of one processing step, in program order. -/
inductive Effect where
  | extractRun (p : String)
  | embedCall (t : String)
  | indexAdd (p : String)
  | indexDelete (p : String)
  | recordUpsert (p : String) (m : Nat) (h : String)
  | recordDelete (p : String)
deriving DecidableEq

/-- A keyed store: the SQLite files table and the Chroma collection are both
maps from a path key to an optional row. -/
def Store (α : Type) : Type := String → Option α

/-- Point update of a store (SQL upsert or delete by primary key; Chroma add
or delete by id). -/
def updateStore {α : Type} (m : Store α) (k : String) (v : Option α) : Store α :=
  fun q => if q = k then v else m q

/- ===== ContentFingerprinter: compute_file_hash (Handler.py lines 64-73) ===== -/

/-- Modelled from the spec: hashlib.md5 is an external library, absent from
this repository. Per section 4.2 the fingerprint only has to be a
deterministic digest of the byte content rendered at a fixed length (the
hexdigest interface: 32 lowercase hex characters); we model the compression
by a concrete deterministic fold into 128 bits. -/
def md5core (bs : List Nat) : Nat :=
  bs.foldl (fun a b => (a * 257 + b + 1) % 2 ^ 128) 17

/-- Big-endian rendering of a number as exactly k hex characters. -/
def hexChars : Nat → Nat → List Char
  | 0, _ => []
  | k + 1, n => hexChars k (n / 16) ++ [Nat.digitChar (n % 16)]

/-- The 32-character hex digest of a byte string (hexdigest interface). -/
def md5hex (bs : List Nat) : String :=
  String.mk (hexChars 32 (md5core bs))

/-- State of an md5 hasher object: the digest is a pure function of the
bytes fed to update so far. -/
structure MD5State where
  fed : List Nat

def MD5State.update (s : MD5State) (chunk : List Nat) : MD5State :=
  ⟨s.fed ++ chunk⟩

def MD5State.hexdigest (s : MD5State) : String :=
  md5hex s.fed

/-- Structural worker for chunks8192; the fuel only bounds the recursion
depth (one chunk consumes at least one byte, so length is enough fuel). -/
def chunksGo : Nat → List Nat → List (List Nat)
  | _, [] => []
  | 0, _ :: _ => []
  | fuel + 1, b :: bs => (b :: bs).take 8192 :: chunksGo fuel ((b :: bs).drop 8192)

/-- The chunks successively returned by f.read(8192) in the while loop of
compute_file_hash. -/
def chunks8192 (bs : List Nat) : List (List Nat) :=
  chunksGo bs.length bs

/- ===== Filesystem snapshot and external collaborators ===== -/

/-- One file visible to the engine.  size models stat().st_size, content the
bytes returned by reading, readable whether open() succeeds, parse the
outcome of the format-specific external parser used by the handler that the
extension dispatches to (none means that parser raises). -/
structure FileEntry where
  isFile : Bool
  readable : Bool
  size : Nat
  content : List Nat
  mtime : Nat
  parse : Option String

/-- Availability flags set by _setup_optional_imports in FileHandler.py. -/
structure Deps where
  openpyxl : Bool
  bs4 : Bool
  pptx : Bool

/-- The environment of one processing step: a filesystem snapshot and the
embedding backend (genai); embed returns none when the backend raises,
which embedding() in embedding_pipeline.py catches and turns into None. -/
structure Env where
  fs : String → Option FileEntry
  embed : String → Option (List Int)
  deps : Deps

/-- compute_file_hash (Handler.py 64-73): stream the file in 8192-byte
chunks through the hasher; any exception (missing file, directory,
permission) is caught and yields None. -/
def compute_file_hash (env : Env) (p : String) : Option String :=
  match env.fs p with
  | none => none
  | some f =>
    if f.isFile && f.readable then
      some (((chunks8192 f.content).foldl MD5State.update ⟨[]⟩).hexdigest)
    else
      none

/-- The digest of a byte content, as compute_file_hash returns it. -/
def fileDigest (bs : List Nat) : String := md5hex bs

/- ===== Basic digest lemmas ===== -/

theorem hexChars_length (k n : Nat) : (hexChars k n).length = k := by
  induction k generalizing n with
  | zero => simp [hexChars]
  | succ k ih => simp [hexChars, ih]

theorem md5hex_length (bs : List Nat) : (md5hex bs).length = 32 := by
  show (hexChars 32 (md5core bs)).length = 32
  exact hexChars_length 32 _

theorem chunksGo_flatten (fuel : Nat) (bs : List Nat)
    (hf : bs.length ≤ fuel) : (chunksGo fuel bs).flatten = bs := by
  induction fuel generalizing bs with
  | zero =>
    cases bs with
    | nil => rfl
    | cons b bs => simp at hf
  | succ fuel ih =>
    cases bs with
    | nil => rfl
    | cons b bs =>
      have hlen : ((b :: bs).drop 8192).length ≤ fuel := by
        simp only [List.length_drop, List.length_cons]
        simp only [List.length_cons] at hf
        omega
      simp only [chunksGo, List.flatten_cons, ih _ hlen]
      exact List.take_append_drop 8192 (b :: bs)

theorem chunks8192_flatten (bs : List Nat) : (chunks8192 bs).flatten = bs :=
  chunksGo_flatten bs.length bs le_rfl

theorem foldl_update_eq (cs : List (List Nat)) (a : MD5State) :
    cs.foldl MD5State.update a = ⟨a.fed ++ cs.flatten⟩ := by
  induction cs generalizing a with
  | nil => simp
  | cons c cs ih => simp [List.foldl, MD5State.update, ih]

/-- Hashing through the 8192-byte read loop equals the digest of the full
content: the fingerprint is a function of the bytes alone. -/
theorem compute_file_hash_eq (env : Env) (p : String) (f : FileEntry)
    (hfs : env.fs p = some f) (h1 : f.isFile = true) (h2 : f.readable = true) :
    compute_file_hash env p = some (fileDigest f.content) := by
  unfold compute_file_hash
  rw [hfs]
  simp only [h1, h2, Bool.and_self, if_true]
  rw [foldl_update_eq]
  simp [MD5State.hexdigest, chunks8192_flatten, fileDigest]

theorem compute_file_hash_none (env : Env) (p : String) (f : FileEntry)
    (hfs : env.fs p = some f) (h : f.isFile = false ∨ f.readable = false) :
    compute_file_hash env p = none := by
  unfold compute_file_hash
  rw [hfs]
  rcases h with h | h <;> simp [h]

/- ===== TextExtractor: FileHandler.py ===== -/

/-- The final path component, as pathlib exposes it (after the last slash). -/
def basename (p : String) : String :=
  String.mk ((p.data.reverse.takeWhile (fun c => c ≠ '/')).reverse)

/-- pathlib Path.suffix on a name: the part from the last dot on, empty when
the last dot is the first or the last character or there is no dot. -/
def nameSuffix (name : String) : String :=
  let rev := name.data.reverse
  let after := rev.takeWhile (fun c => c ≠ '.')
  if after.length = rev.length then ""
  else if after = [] then ""
  else if rev.drop (after.length + 1) = [] then ""
  else String.mk ('.' :: after.reverse)

/-- ASCII lowercasing, as str.lower applies it to an extension. -/
def lowerAscii (s : String) : String :=
  String.mk (s.data.map (fun c => if c.isUpper then Char.ofNat (c.toNat + 32) else c))

/-- The thirteen handler methods of FileProcessor. -/
inductive FHandler where
  | textFile | docx | pdf | odt | jsonF | csvF | tsvF | xmlF | htmlF
  | archive | excel | powerpoint | image
deriving DecidableEq

/-- The self.handlers dictionary of FileProcessor, keyed by lowercased
extension (FileHandler.py lines 17-68). -/
def handlerFor : String → Option FHandler
  | ".txt" | ".md" | ".rst" | ".log" | ".rtf" => some .textFile
  | ".docx" => some .docx
  | ".pdf" => some .pdf
  | ".odt" => some .odt
  | ".json" => some .jsonF
  | ".csv" => some .csvF
  | ".tsv" => some .tsvF
  | ".xml" => some .xmlF
  | ".html" | ".htm" => some .htmlF
  | ".py" | ".js" | ".java" | ".cpp" | ".c" | ".h" | ".css" | ".sql"
  | ".sh" | ".yml" | ".yaml" => some .textFile
  | ".zip" | ".tar" | ".gz" => some .archive
  | ".xlsx" | ".xls" => some .excel
  | ".pptx" => some .powerpoint
  | ".jpg" | ".jpeg" | ".png" | ".bmp" | ".tiff" | ".gif" => some .image
  | _ => none

/-- The text a byte content decodes to.  _read_text_file always produces a
string once open succeeds (its last fallback decodes ignoring errors); the
exact decoding goes through the external chardet library, modelled as a
concrete function of the bytes. -/
def decodeText (bs : List Nat) : String :=
  String.mk (bs.map (fun b => Char.ofNat (b % 256)))

/-- _read_text_file (lines 108-122): raises only when open() does
(unreadable file); otherwise returns the decoded content. -/
def readTextFile (f : FileEntry) : Except Unit String :=
  if f.readable then Except.ok (decodeText f.content) else Except.error ()

/-- One handler invocation; Except.error means the Python call raises.

FileHandler.py imports neither os, mimetypes, docx2txt, fitz, pytesseract
nor PIL, so inside this module every expression mentioning those names
raises NameError:
- _read_docx (line 126) and _read_pdf (line 132) raise on their first use
  of docx2txt and fitz;
- every placeholder return built with os.path.basename (lines 158, 225,
  245, 250, 265, 277, 279, 282, 290) raises instead of returning, including
  the success path of _read_archive (line 279);
- _read_image raises NameError on pytesseract (line 287), caught by its
  except clause, whose placeholder line 290 then raises again. -/
def runHandler (env : Env) (f : FileEntry) : FHandler → Except Unit String
  | .textFile => readTextFile f
  | .docx => Except.error ()
  | .pdf => Except.error ()
  | .odt =>
    match f.parse with
    | some s => Except.ok s
    | none => Except.error ()
  | .jsonF =>
    if f.readable then
      match f.parse with
      | some s => Except.ok s
      | none => readTextFile f
    else Except.error ()
  | .csvF | .tsvF =>
    if f.readable then Except.ok (f.parse.getD (decodeText f.content))
    else readTextFile f
  | .xmlF | .htmlF =>
    if env.deps.bs4 then
      match f.parse with
      | some s => Except.ok s
      | none => readTextFile f
    else readTextFile f
  | .archive => Except.error ()
  | .excel =>
    if env.deps.openpyxl then
      match f.parse with
      | some s => Except.ok s
      | none => Except.error ()
    else Except.error ()
  | .powerpoint =>
    if env.deps.pptx then
      match f.parse with
      | some s => Except.ok s
      | none => Except.error ()
    else Except.error ()
  | .image => Except.error ()

/-- The 50 MiB limit of open_file (line 316). -/
def maxSize : Nat := 50 * 1024 * 1024

/-- open_file (FileHandler.py 295-353).  Returns the extracted text, or none
when processing failed, together with the trace of handler invocations.
The body after the size checks sits in a try block whose except returns
None, so a raising handler yields none rather than an escaping error.  The
mime-type fallback for extensions without a handler (line 335) raises
NameError at once (mimetypes is not imported), caught by the same except:
no handler runs and none is returned. -/
def open_file (env : Env) (p : String) : Option String × List Effect :=
  match env.fs p with
  | none => (none, [])
  | some f =>
    if f.isFile = false then (none, [])
    else if f.size > maxSize then (none, [])
    else if f.size = 0 then (some "", [])
    else
      match handlerFor (lowerAscii (nameSuffix (basename p))) with
      | some h =>
        match runHandler env f h with
        | Except.ok s => (some s, [Effect.extractRun p])
        | Except.error _ => (none, [Effect.extractRun p])
      | none => (none, [])

/- ===== IndexClient: embedding_pipeline.py ===== -/

/-- add_to_vector_db (embedding_pipeline.py 48-73) over the Chroma
collection, modelled as a store of document texts keyed by path.  The
Python truthiness tests are kept: `if not text` is true for both None and
the empty string, and `if embedded` is false for an empty vector. -/
def add_to_vector_db (env : Env) (idx : Store String) (p : String) :
    Store String × Bool × List Effect :=
  match (open_file env p).1 with
  | none => (idx, false, (open_file env p).2)
  | some text =>
    if text = "" then (idx, false, (open_file env p).2)
    else
      match env.embed text with
      | none => (idx, false, (open_file env p).2 ++ [Effect.embedCall text])
      | some v =>
        if v = [] then (idx, false, (open_file env p).2 ++ [Effect.embedCall text])
        else (updateStore idx p (some text), true,
              (open_file env p).2 ++ [Effect.embedCall text, Effect.indexAdd p])

/-- delete_from_vector_db (embedding_pipeline.py 78-89): collection.delete
by id, wrapped in try/except so it never raises. -/
def delete_from_vector_db (idx : Store String) (p : String) :
    Store String × List Effect :=
  (updateStore idx p none, [Effect.indexDelete p])

/- ===== ChangeRecordStore: the SQLite files table (Handler.py 20-62) ===== -/

/-- A row of the files table: (last_modified, file_hash), keyed by
filepath.  last_modified is an opaque timestamp value. -/
def Records : Type := Store (Nat × String)

/-- get_file_record (Handler.py 40-44). -/
def get_file_record (r : Records) (p : String) : Option (Nat × String) := r p

/-- upsert_file_record (Handler.py 46-56): INSERT ... ON CONFLICT DO
UPDATE. -/
def upsert_file_record (r : Records) (p : String) (m : Nat) (h : String) :
    Records :=
  updateStore r p (some (m, h))

/-- delete_file_record (Handler.py 58-62): DELETE WHERE filepath = path. -/
def delete_file_record (r : Records) (p : String) : Records :=
  updateStore r p none

/- ===== SyncEngine: RAGFileEventHandler (Handler.py 76-132) ===== -/

/-- The durable state the engine acts on: the files table and the Chroma
collection. -/
structure SyncState where
  records : Records
  index : Store String

/-- RAGFileEventHandler.process (Handler.py 100-132).  A missing path, a
failing stat, or a failing hash each return early with no mutation.
Otherwise: a new path or a changed digest upserts the record and then calls
add_to_vector_db (whose Boolean result the code ignores); an equal digest
only logs. -/
def process (env : Env) (s : SyncState) (p : String) : SyncState × List Effect :=
  match env.fs p with
  | none => (s, [])
  | some f =>
    match compute_file_hash env p with
    | none => (s, [])
    | some h =>
      match get_file_record s.records p with
      | none =>
        let r1 := upsert_file_record s.records p f.mtime h
        let a := add_to_vector_db env s.index p
        (⟨r1, a.1⟩, Effect.recordUpsert p f.mtime h :: a.2.2)
      | some (_, lastHash) =>
        if h ≠ lastHash then
          let r1 := upsert_file_record s.records p f.mtime h
          let a := add_to_vector_db env s.index p
          (⟨r1, a.1⟩, Effect.recordUpsert p f.mtime h :: a.2.2)
        else (s, [])

/-- RAGFileEventHandler.on_deleted (Handler.py 86-91) for a file event:
delete the record, then the index entry. -/
def on_deleted (s : SyncState) (p : String) : SyncState × List Effect :=
  let d := delete_from_vector_db s.index p
  (⟨delete_file_record s.records p, d.1⟩, Effect.recordDelete p :: d.2)

/-- RAGFileEventHandler.on_moved (Handler.py 93-98) for a file event:
delete record and index entry of the source, then process the
destination. -/
def on_moved (env : Env) (s : SyncState) (src dst : String) :
    SyncState × List Effect :=
  let d := delete_from_vector_db s.index src
  let s1 : SyncState := ⟨delete_file_record s.records src, d.1⟩
  let pr := process env s1 dst
  (pr.1, Effect.recordDelete src :: d.2 ++ pr.2)

/-- How many collection.add calls a trace contains. -/
def countIndexAdds (t : List Effect) : Nat :=
  t.countP fun e =>
    match e with
    | Effect.indexAdd _ => true
    | _ => false

/- ===== Helper lemmas ===== -/

theorem open_file_trace (env : Env) (p : String) :
    (open_file env p).2 = [] ∨ (open_file env p).2 = [Effect.extractRun p] := by
  unfold open_file
  repeat' split
  all_goals simp

theorem countIndexAdds_nil : countIndexAdds [] = 0 := rfl

theorem countIndexAdds_append (t1 t2 : List Effect) :
    countIndexAdds (t1 ++ t2) = countIndexAdds t1 + countIndexAdds t2 :=
  List.countP_append _ _ _

theorem countIndexAdds_extract (p : String) :
    countIndexAdds [Effect.extractRun p] = 0 := rfl

theorem countIndexAdds_embed (t : String) :
    countIndexAdds [Effect.embedCall t] = 0 := rfl

theorem countIndexAdds_embed_add (t p : String) :
    countIndexAdds [Effect.embedCall t, Effect.indexAdd p] = 1 := rfl

theorem countIndexAdds_open (env : Env) (p : String) :
    countIndexAdds (open_file env p).2 = 0 := by
  rcases open_file_trace env p with h | h <;> rw [h]
  · exact countIndexAdds_nil
  · exact countIndexAdds_extract p

theorem add_to_vector_db_cases (env : Env) (idx : Store String) (p : String) :
    (∃ t, (open_file env p).1 = some t ∧
      add_to_vector_db env idx p =
        (updateStore idx p (some t), true,
         (open_file env p).2 ++ [Effect.embedCall t, Effect.indexAdd p]))
    ∨ ((add_to_vector_db env idx p).1 = idx ∧
       (add_to_vector_db env idx p).2.1 = false ∧
       countIndexAdds (add_to_vector_db env idx p).2.2 = 0) := by
  have hco := countIndexAdds_open env p
  unfold add_to_vector_db
  cases ho : (open_file env p).1 with
  | none => exact Or.inr ⟨rfl, rfl, hco⟩
  | some t =>
    dsimp only
    by_cases ht : t = ""
    · right
      rw [if_pos ht]
      exact ⟨rfl, rfl, hco⟩
    · rw [if_neg ht]
      cases he : env.embed t with
      | none =>
        right
        refine ⟨rfl, rfl, ?_⟩
        rw [countIndexAdds_append, hco, countIndexAdds_embed]
      | some v =>
        dsimp only
        by_cases hv : v = []
        · right
          rw [if_pos hv]
          refine ⟨rfl, rfl, ?_⟩
          rw [countIndexAdds_append, hco, countIndexAdds_embed]
        · left
          rw [if_neg hv]
          exact ⟨t, rfl, rfl⟩

theorem add_to_vector_db_success (env : Env) (idx : Store String) (p t : String)
    (v : List Int) (ho : (open_file env p).1 = some t) (ht : t ≠ "")
    (he : env.embed t = some v) (hv : v ≠ []) :
    add_to_vector_db env idx p =
      (updateStore idx p (some t), true,
       (open_file env p).2 ++ [Effect.embedCall t, Effect.indexAdd p]) := by
  unfold add_to_vector_db
  rw [ho]
  dsimp only
  rw [if_neg ht, he]
  dsimp only
  rw [if_neg hv]

theorem add_to_vector_db_false (env : Env) (idx : Store String) (p : String)
    (h : (add_to_vector_db env idx p).2.1 = false) :
    (add_to_vector_db env idx p).1 = idx := by
  rcases add_to_vector_db_cases env idx p with ⟨t, _, heq⟩ | ⟨h1, _, _⟩
  · rw [heq] at h; simp at h
  · exact h1

theorem process_reindex (env : Env) (s : SyncState) (p : String) (f : FileEntry)
    (h : String) (hfs : env.fs p = some f)
    (hh : compute_file_hash env p = some h)
    (hrec : s.records p = none ∨ ∃ m lh, s.records p = some (m, lh) ∧ h ≠ lh) :
    process env s p =
      (⟨upsert_file_record s.records p f.mtime h,
        (add_to_vector_db env s.index p).1⟩,
       Effect.recordUpsert p f.mtime h :: (add_to_vector_db env s.index p).2.2) := by
  unfold process
  rw [hfs, hh]
  unfold get_file_record
  rcases hrec with hr | ⟨m, lh, hr, hne⟩
  · rw [hr]
  · rw [hr]
    simp [hne]

theorem process_unchanged (env : Env) (s : SyncState) (p : String)
    (f : FileEntry) (m : Nat) (h : String) (hfs : env.fs p = some f)
    (hh : compute_file_hash env p = some h)
    (hrec : s.records p = some (m, h)) :
    process env s p = (s, []) := by
  unfold process
  rw [hfs, hh]
  unfold get_file_record
  rw [hrec]
  simp

theorem countIndexAdds_cons_upsert (p : String) (m : Nat) (h : String)
    (t : List Effect) :
    countIndexAdds (Effect.recordUpsert p m h :: t) = countIndexAdds t := by
  simp [countIndexAdds, List.countP_cons]

theorem add_to_vector_db_none (env : Env) (idx : Store String) (p : String)
    (h : (open_file env p).1 = none) :
    add_to_vector_db env idx p = (idx, false, (open_file env p).2) := by
  unfold add_to_vector_db
  rw [h]

theorem add_to_vector_db_empty (env : Env) (idx : Store String) (p : String)
    (h : (open_file env p).1 = some "") :
    add_to_vector_db env idx p = (idx, false, (open_file env p).2) := by
  unfold add_to_vector_db
  rw [h]
  dsimp only
  rw [if_pos rfl]

theorem add_to_vector_db_other (env : Env) (idx : Store String) (p q : String)
    (hq : q ≠ p) : (add_to_vector_db env idx p).1 q = idx q := by
  rcases add_to_vector_db_cases env idx p with ⟨t, _, heq⟩ | ⟨h1, _, _⟩
  · rw [heq]
    simp [updateStore, hq]
  · rw [h1]

/-- process touches no key other than the one it was given. -/
theorem process_frame (env : Env) (s : SyncState) (p q : String) (hq : q ≠ p) :
    (process env s p).1.records q = s.records q ∧
    (process env s p).1.index q = s.index q := by
  unfold process
  cases hfs : env.fs p with
  | none => exact ⟨rfl, rfl⟩
  | some f =>
    cases hh : compute_file_hash env p with
    | none => exact ⟨rfl, rfl⟩
    | some h =>
      cases hrec : get_file_record s.records p with
      | none =>
        dsimp only
        exact ⟨by simp [upsert_file_record, updateStore, hq],
               add_to_vector_db_other env s.index p q hq⟩
      | some r =>
        obtain ⟨m, lh⟩ := r
        dsimp only
        by_cases hne : h ≠ lh
        · rw [if_pos hne]
          exact ⟨by simp [upsert_file_record, updateStore, hq],
                 add_to_vector_db_other env s.index p q hq⟩
        · rw [if_neg hne]
          exact ⟨rfl, rfl⟩

theorem open_file_empty (env : Env) (p : String) (f : FileEntry)
    (hfs : env.fs p = some f) (hif : f.isFile = true) (hsz : f.size = 0) :
    open_file env p = (some "", []) := by
  unfold open_file
  rw [hfs]
  dsimp only
  rw [hif, hsz]
  norm_num [maxSize]

/- ===== Concrete sample data for witnesses and counterexamples ===== -/

/-- The empty store: a fresh files table or Chroma collection. -/
def emptyStore {α : Type} : Store α := fun _ => none

/-- The engine state before any event was processed. -/
def state0 : SyncState := ⟨emptyStore, emptyStore⟩

/-- A one-byte readable text file with content "a" and mtime 5. -/
def txtEntry : FileEntry := ⟨true, true, 1, [97], 5, none⟩

/-- The same byte content under a different mtime. -/
def txtEntryLater : FileEntry := ⟨true, true, 1, [97], 777, none⟩

/-- A pdf file (its external parser would raise on it). -/
def pdfEntry : FileEntry := ⟨true, true, 3, [1, 2, 3], 7, none⟩

/-- A file whose stat size exceeds the 50 MiB limit. -/
def bigEntry : FileEntry := ⟨true, true, 52428801, [], 9, none⟩

/-- A zero-byte file. -/
def emptyEntry : FileEntry := ⟨true, true, 0, [], 4, none⟩

/-- A file open() fails on (permission race). -/
def unreadableEntry : FileEntry := ⟨true, false, 1, [97], 5, none⟩

def depsAll : Deps := ⟨true, true, true⟩

/-- One watched text file; the embedding backend is unreachable. -/
def envDown : Env :=
  ⟨fun q => if q = "/w/a.txt" then some txtEntry else none,
   fun _ => none, depsAll⟩

/-- One watched text file; the embedding backend works. -/
def envUp : Env :=
  ⟨fun q => if q = "/w/a.txt" then some txtEntry else none,
   fun _ => some [1], depsAll⟩

/-- The same bytes at another path, another mtime, in another snapshot. -/
def envCopy : Env :=
  ⟨fun q => if q = "/z/copy.md" then some txtEntryLater else none,
   fun _ => some [1], depsAll⟩

def envPdf : Env :=
  ⟨fun q => if q = "/w/doc.pdf" then some pdfEntry else none,
   fun _ => some [1], depsAll⟩

def envBig : Env :=
  ⟨fun q => if q = "/w/big.txt" then some bigEntry else none,
   fun _ => some [1], depsAll⟩

def envEmpty : Env :=
  ⟨fun q => if q = "/w/empty.txt" then some emptyEntry else none,
   fun _ => some [1], depsAll⟩

def envUnreadable : Env :=
  ⟨fun q => if q = "/w/a.txt" then some unreadableEntry else none,
   fun _ => some [1], depsAll⟩

/-- Snapshot after a move: the destination exists, the source is gone. -/
def envMoved : Env :=
  ⟨fun q => if q = "/w/b.txt" then some txtEntry else none,
   fun _ => some [1], depsAll⟩

/-- A state tracking the text file with its current digest but a stale
mtime. -/
def trackedState : SyncState :=
  ⟨fun q => if q = "/w/a.txt" then some (999, fileDigest [97]) else none,
   emptyStore⟩

/- ===== The claims ===== -/

/-- C1, counterexample.  The claim says a record is upserted only after a
successful index mutation.  At this concrete input the embedding backend is
unavailable, so the index mutation fails (no index add happens and the
index stays empty), yet process has created the ChangeRecord for the
path. -/
theorem C1_cex_record_written_despite_index_failure :
    countIndexAdds (process envDown state0 "/w/a.txt").2 = 0 ∧
    (process envDown state0 "/w/a.txt").1.index "/w/a.txt" = none ∧
    state0.records "/w/a.txt" = none ∧
    (process envDown state0 "/w/a.txt").1.records "/w/a.txt" =
      some (5, fileDigest [97]) := by
  refine ⟨?_, ?_, rfl, ?_⟩ <;> decide

/-- C1, amended: when a Created or Modified event reaches the indexing step
(new path or changed digest) and the index mutation fails (extraction
yields no text, or the embedding fails), the index is left unchanged but
the ChangeRecord has nevertheless been updated to the new mtime and hash:
the code performs the record upsert before the index mutation, never
after. -/
theorem C1_record_upserted_before_index_mutation
    (env : Env) (s : SyncState) (p : String) (f : FileEntry) (h : String)
    (hfs : env.fs p = some f)
    (hh : compute_file_hash env p = some h)
    (hrec : s.records p = none ∨ ∃ m lh, s.records p = some (m, lh) ∧ h ≠ lh)
    (hfail : (add_to_vector_db env s.index p).2.1 = false) :
    (process env s p).1.records p = some (f.mtime, h) ∧
    (process env s p).1.index = s.index ∧
    countIndexAdds (process env s p).2 = 0 := by
  rw [process_reindex env s p f h hfs hh hrec]
  refine ⟨by simp [upsert_file_record, updateStore], ?_, ?_⟩
  · exact add_to_vector_db_false env s.index p hfail
  · rw [countIndexAdds_cons_upsert]
    rcases add_to_vector_db_cases env s.index p with ⟨t, _, heq⟩ | ⟨_, _, hc⟩
    · rw [heq] at hfail
      simp at hfail
    · exact hc

theorem C1_record_upserted_before_index_mutation_witness :
    (process envDown state0 "/w/a.txt").1.records "/w/a.txt" =
      some (5, fileDigest [97]) ∧
    (process envDown state0 "/w/a.txt").1.index = state0.index ∧
    countIndexAdds (process envDown state0 "/w/a.txt").2 = 0 := by
  have h := C1_record_upserted_before_index_mutation envDown state0 "/w/a.txt"
    txtEntry (fileDigest [97]) rfl (by decide) (Or.inl rfl) (by decide)
  exact h

/-- C2: for a Created or Modified event on an existing readable path whose
computed digest equals the stored digest, process mutates nothing and
produces no effect at all (no embedding call, no index add, no record
upsert), whatever the stored and current modification timestamps are. -/
theorem C2_reindex_decided_by_digest_not_timestamp
    (env : Env) (s : SyncState) (p : String) (f : FileEntry) (m : Nat)
    (hfs : env.fs p = some f) (hif : f.isFile = true) (hr : f.readable = true)
    (hrec : s.records p = some (m, fileDigest f.content)) :
    process env s p = (s, []) :=
  process_unchanged env s p f m (fileDigest f.content) hfs
    (compute_file_hash_eq env p f hfs hif hr) hrec

theorem C2_reindex_decided_by_digest_not_timestamp_witness :
    process envUp trackedState "/w/a.txt" = (trackedState, []) :=
  C2_reindex_decided_by_digest_not_timestamp envUp trackedState "/w/a.txt"
    txtEntry 999 rfl rfl rfl rfl

/-- C3: processing the same Modified event twice in a row, with the file
bytes unchanged in between (the second snapshot may carry any mtime), makes
exactly one index upsert in total; the second run returns the state
untouched with an empty trace, a no-op on record store and index alike. -/
theorem C3_second_identical_event_is_noop
    (env env2 : Env) (s : SyncState) (p : String) (f f2 : FileEntry)
    (t : String) (v : List Int)
    (hfs : env.fs p = some f) (hif : f.isFile = true) (hr : f.readable = true)
    (hrec : s.records p = none ∨
            ∃ m lh, s.records p = some (m, lh) ∧ fileDigest f.content ≠ lh)
    (ho : (open_file env p).1 = some t) (ht : t ≠ "")
    (he : env.embed t = some v) (hv : v ≠ [])
    (hfs2 : env2.fs p = some f2) (hif2 : f2.isFile = true)
    (hr2 : f2.readable = true) (hc2 : f2.content = f.content) :
    process env2 (process env s p).1 p = ((process env s p).1, []) ∧
    countIndexAdds
      ((process env s p).2 ++ (process env2 (process env s p).1 p).2) = 1 := by
  have hh := compute_file_hash_eq env p f hfs hif hr
  have hpr := process_reindex env s p f (fileDigest f.content) hfs hh hrec
  have hadd := add_to_vector_db_success env s.index p t v ho ht he hv
  have hrec1 : (process env s p).1.records p =
      some (f.mtime, fileDigest f.content) := by
    rw [hpr]
    simp [upsert_file_record, updateStore]
  have hh2 : compute_file_hash env2 p = some (fileDigest f.content) := by
    rw [compute_file_hash_eq env2 p f2 hfs2 hif2 hr2, hc2]
  have hnoop := process_unchanged env2 (process env s p).1 p f2 f.mtime
    (fileDigest f.content) hfs2 hh2 hrec1
  refine ⟨hnoop, ?_⟩
  rw [hnoop]
  rw [countIndexAdds_append]
  rw [hpr]
  dsimp only
  rw [hadd]
  dsimp only
  rw [countIndexAdds_cons_upsert, countIndexAdds_append, countIndexAdds_open,
    countIndexAdds_embed_add, countIndexAdds_nil]

theorem C3_second_identical_event_is_noop_witness :
    process envUp (process envUp state0 "/w/a.txt").1 "/w/a.txt" =
      ((process envUp state0 "/w/a.txt").1, []) ∧
    countIndexAdds
      ((process envUp state0 "/w/a.txt").2 ++
       (process envUp (process envUp state0 "/w/a.txt").1 "/w/a.txt").2) = 1 :=
  C3_second_identical_event_is_noop envUp envUp state0 "/w/a.txt" txtEntry
    txtEntry "a" [1] rfl rfl rfl (Or.inl rfl) (by decide) (by decide) rfl
    (by decide) rfl rfl rfl rfl

/-- C4, counterexample.  The claim says a failed extraction degrades to a
placeholder text so the path still receives an index entry.  For this
concrete pdf file extraction fails (fitz is not even importable inside
FileHandler.py) and open_file returns None, not a placeholder; the indexing
step then returns False and writes nothing, so the path has no index
entry. -/
theorem C4_cex_failed_extraction_no_placeholder_no_entry :
    (open_file envPdf "/w/doc.pdf").1 = none ∧
    (add_to_vector_db envPdf emptyStore "/w/doc.pdf").2.1 = false ∧
    (add_to_vector_db envPdf emptyStore "/w/doc.pdf").1 "/w/doc.pdf" = none := by
  refine ⟨?_, ?_, ?_⟩ <;> decide

/-- C4, amended: when extraction fails — the dispatched handler raises
(corrupt or unsupported content, including every placeholder branch, which
raises NameError because FileHandler.py never imports os), or the format is
unrecognized (no handler; the mime fallback raises NameError because
mimetypes is not imported) — open_file catches the error and returns None
rather than a placeholder text, no error escapes, and the indexing step
leaves the index unchanged: the path receives no index entry. -/
theorem C4_failed_extraction_yields_none_and_no_entry
    (env : Env) (idx : Store String) (p : String) (f : FileEntry)
    (hfs : env.fs p = some f) (hif : f.isFile = true)
    (hsz : ¬ f.size > maxSize) (hnz : ¬ f.size = 0)
    (hfail : ∀ h, handlerFor (lowerAscii (nameSuffix (basename p))) = some h →
      runHandler env f h = Except.error ()) :
    (open_file env p).1 = none ∧
    (add_to_vector_db env idx p).1 = idx ∧
    (add_to_vector_db env idx p).2.1 = false := by
  have ho : (open_file env p).1 = none := by
    unfold open_file
    rw [hfs]
    dsimp only
    rw [hif, if_neg (by decide), if_neg hsz, if_neg hnz]
    cases hh : handlerFor (lowerAscii (nameSuffix (basename p))) with
    | none => rfl
    | some h =>
      dsimp only
      rw [hfail h hh]
  have hadd := add_to_vector_db_none env idx p ho
  exact ⟨ho, by rw [hadd], by rw [hadd]⟩

theorem C4_failed_extraction_yields_none_and_no_entry_witness :
    (open_file envPdf "/w/doc.pdf").1 = none ∧
    (add_to_vector_db envPdf (emptyStore : Store String) "/w/doc.pdf").1 =
      emptyStore ∧
    (add_to_vector_db envPdf (emptyStore : Store String) "/w/doc.pdf").2.1 =
      false :=
  C4_failed_extraction_yields_none_and_no_entry envPdf emptyStore "/w/doc.pdf"
    pdfEntry rfl rfl (by decide) (by decide)
    (fun h hh => by
      simp only [show handlerFor
        (lowerAscii (nameSuffix (basename "/w/doc.pdf"))) =
          some FHandler.pdf from rfl] at hh
      cases hh
      rfl)

/-- C5: a Moved event from src to dst (dst existing and readable) removes
the record and index entry of the source and runs the Created/Modified
policy on the destination, leaving the source Untracked and the destination
Tracked with the digest of its current bytes. -/
theorem C5_move_untracks_src_tracks_dst
    (env : Env) (s : SyncState) (src dst : String) (f : FileEntry)
    (hne : src ≠ dst) (hfs : env.fs dst = some f) (hif : f.isFile = true)
    (hr : f.readable = true) :
    (on_moved env s src dst).1.records src = none ∧
    (on_moved env s src dst).1.index src = none ∧
    ∃ m, (on_moved env s src dst).1.records dst =
      some (m, fileDigest f.content) := by
  unfold on_moved
  dsimp only
  set s1 : SyncState := ⟨delete_file_record s.records src,
    (delete_from_vector_db s.index src).1⟩ with hs1
  have hh := compute_file_hash_eq env dst f hfs hif hr
  have hframe := process_frame env s1 dst src hne
  have hs1r : s1.records src = none := by
    simp [hs1, delete_file_record, updateStore]
  have hs1i : s1.index src = none := by
    simp [hs1, delete_from_vector_db, updateStore]
  refine ⟨by rw [hframe.1, hs1r], by rw [hframe.2, hs1i], ?_⟩
  cases hrd : s1.records dst with
  | none =>
    rw [process_reindex env s1 dst f _ hfs hh (Or.inl hrd)]
    exact ⟨f.mtime, by simp [upsert_file_record, updateStore]⟩
  | some r =>
    obtain ⟨m, lh⟩ := r
    by_cases heq : fileDigest f.content = lh
    · rw [process_unchanged env s1 dst f m (fileDigest f.content) hfs hh
        (by rw [hrd, heq])]
      exact ⟨m, by rw [hrd, heq]⟩
    · rw [process_reindex env s1 dst f _ hfs hh (Or.inr ⟨m, lh, hrd, heq⟩)]
      exact ⟨f.mtime, by simp [upsert_file_record, updateStore]⟩

theorem C5_move_untracks_src_tracks_dst_witness :
    (on_moved envMoved trackedState "/w/a.txt" "/w/b.txt").1.records
      "/w/a.txt" = none ∧
    (on_moved envMoved trackedState "/w/a.txt" "/w/b.txt").1.index
      "/w/a.txt" = none ∧
    ∃ m, (on_moved envMoved trackedState "/w/a.txt" "/w/b.txt").1.records
      "/w/b.txt" = some (m, fileDigest [97]) :=
  C5_move_untracks_src_tracks_dst envMoved trackedState "/w/a.txt" "/w/b.txt"
    txtEntry (by decide) rfl rfl rfl

/-- C6: deleting a change record is idempotent and deleting an absent path
is a no-op, not an error; a Deleted event removes both the record and the
index entry of the path, even for a state in which no record existed. -/
theorem C6_delete_idempotent_and_terminal (s : SyncState) (p : String) :
    delete_file_record (delete_file_record s.records p) p =
      delete_file_record s.records p ∧
    (s.records p = none → delete_file_record s.records p = s.records) ∧
    (on_deleted s p).1.records p = none ∧
    (on_deleted s p).1.index p = none := by
  refine ⟨funext fun q => ?_, fun h => funext fun q => ?_, ?_, ?_⟩
  · by_cases hq : q = p <;> simp [delete_file_record, updateStore, hq]
  · by_cases hq : q = p <;> simp [delete_file_record, updateStore, hq, h]
  · simp [on_deleted, delete_file_record, updateStore]
  · simp [on_deleted, delete_from_vector_db, updateStore]

theorem C6_delete_idempotent_and_terminal_witness :
    state0.records "/w/a.txt" = none ∧
    delete_file_record (delete_file_record state0.records "/w/a.txt")
      "/w/a.txt" = delete_file_record state0.records "/w/a.txt" ∧
    delete_file_record state0.records "/w/a.txt" = state0.records ∧
    (on_deleted state0 "/w/a.txt").1.records "/w/a.txt" = none ∧
    (on_deleted state0 "/w/a.txt").1.index "/w/a.txt" = none :=
  ⟨rfl, (C6_delete_idempotent_and_terminal state0 "/w/a.txt").1,
   (C6_delete_idempotent_and_terminal state0 "/w/a.txt").2.1 rfl,
   (C6_delete_idempotent_and_terminal state0 "/w/a.txt").2.2.1,
   (C6_delete_idempotent_and_terminal state0 "/w/a.txt").2.2.2⟩

/-- C7: a Created or Modified event whose path no longer exists when
processing begins, or whose content cannot be hashed, is skipped: the state
(record store and index) is returned unchanged, with no effect at all. -/
theorem C7_vanished_or_unhashable_is_skipped
    (env : Env) (s : SyncState) (p : String)
    (h : env.fs p = none ∨ compute_file_hash env p = none) :
    process env s p = (s, []) := by
  unfold process
  rcases h with h | h
  · rw [h]
  · cases hfs : env.fs p with
    | none => rfl
    | some f => rw [h]

theorem C7_vanished_or_unhashable_is_skipped_witness :
    process envUp state0 "/w/missing.txt" = (state0, []) ∧
    process envUnreadable state0 "/w/a.txt" = (state0, []) :=
  ⟨C7_vanished_or_unhashable_is_skipped envUp state0 "/w/missing.txt"
    (Or.inl rfl),
   C7_vanished_or_unhashable_is_skipped envUnreadable state0 "/w/a.txt"
    (Or.inr (by decide))⟩

/-- C8: a file whose stat size exceeds the 50 MiB threshold is rejected by
open_file before any extraction is attempted: no handler runs (empty trace)
and no text is returned. -/
theorem C8_oversize_rejected_before_extraction
    (env : Env) (p : String) (f : FileEntry)
    (hfs : env.fs p = some f) (hsz : f.size > maxSize) :
    open_file env p = (none, []) := by
  unfold open_file
  rw [hfs]
  dsimp only
  by_cases hif : f.isFile = false
  · rw [if_pos hif]
  · rw [if_neg hif, if_pos hsz]

theorem C8_oversize_rejected_before_extraction_witness :
    open_file envBig "/w/big.txt" = (none, []) :=
  C8_oversize_rejected_before_extraction envBig "/w/big.txt" bigEntry rfl
    (by decide)

/-- C9: the fingerprint is a deterministic function of the byte content
alone: hashing two files with identical bytes — whatever their paths,
mtimes or snapshots — yields the same 32-character digest, computed through
the 8192-byte read loop; and a file open() fails on yields None (a read
failure result), not a crash. -/
theorem C9_digest_deterministic_fixed_length :
    (∀ (env env2 : Env) (p p2 : String) (f f2 : FileEntry),
      env.fs p = some f → env2.fs p2 = some f2 →
      f.isFile = true → f.readable = true →
      f2.isFile = true → f2.readable = true → f2.content = f.content →
      compute_file_hash env p = some (fileDigest f.content) ∧
      compute_file_hash env2 p2 = some (fileDigest f.content) ∧
      (fileDigest f.content).length = 32) ∧
    (∀ (env : Env) (p : String) (f : FileEntry),
      env.fs p = some f → f.readable = false →
      compute_file_hash env p = none) := by
  constructor
  · intro env env2 p p2 f f2 h1 h2 hi1 hr1 hi2 hr2 hc
    refine ⟨compute_file_hash_eq env p f h1 hi1 hr1, ?_, md5hex_length _⟩
    rw [compute_file_hash_eq env2 p2 f2 h2 hi2 hr2, hc]
  · intro env p f hfs hr
    exact compute_file_hash_none env p f hfs (Or.inr hr)

theorem C9_digest_deterministic_fixed_length_witness :
    compute_file_hash envUp "/w/a.txt" = some (fileDigest [97]) ∧
    compute_file_hash envCopy "/z/copy.md" = some (fileDigest [97]) ∧
    (fileDigest [97]).length = 32 ∧
    compute_file_hash envUnreadable "/w/a.txt" = none := by
  obtain ⟨h1, h2, h3⟩ := C9_digest_deterministic_fixed_length.1 envUp envCopy
    "/w/a.txt" "/z/copy.md" txtEntry txtEntryLater rfl rfl rfl rfl rfl rfl rfl
  exact ⟨h1, h2, h3,
    C9_digest_deterministic_fixed_length.2 envUnreadable "/w/a.txt"
      unreadableEntry rfl rfl⟩

/-- C10: a Created or Modified event on a zero-byte file creates the
ChangeRecord for the path, while extraction returns the empty string, which
add_to_vector_db treats as a failure (False) and returns without writing to
the index: the index is unchanged and no index add happens, and any later
event with identical (empty) content is skipped as unchanged — the path
stays tracked in the record store and never enters the index. -/
theorem C10_empty_file_tracked_never_indexed
    (env : Env) (s : SyncState) (p : String) (f : FileEntry)
    (hfs : env.fs p = some f) (hif : f.isFile = true) (hr : f.readable = true)
    (hsz : f.size = 0) (hc : f.content = []) (hrec : s.records p = none) :
    (open_file env p).1 = some "" ∧
    (add_to_vector_db env s.index p).2.1 = false ∧
    (process env s p).1.records p = some (f.mtime, fileDigest []) ∧
    (process env s p).1.index = s.index ∧
    countIndexAdds (process env s p).2 = 0 ∧
    (∀ (env2 : Env) (f2 : FileEntry), env2.fs p = some f2 →
      f2.isFile = true → f2.readable = true → f2.content = [] →
      process env2 (process env s p).1 p = ((process env s p).1, [])) := by
  have ho := open_file_empty env p f hfs hif hsz
  have ho1 : (open_file env p).1 = some "" := by rw [ho]
  have hadd := add_to_vector_db_empty env s.index p ho1
  have hh : compute_file_hash env p = some (fileDigest []) := by
    rw [compute_file_hash_eq env p f hfs hif hr, hc]
  have hpr := process_reindex env s p f (fileDigest []) hfs hh (Or.inl hrec)
  have hrec1 : (process env s p).1.records p = some (f.mtime, fileDigest []) := by
    rw [hpr]
    simp [upsert_file_record, updateStore]
  refine ⟨ho1, by rw [hadd], hrec1, ?_, ?_, ?_⟩
  · rw [hpr]
    dsimp only
    rw [hadd]
  · rw [hpr]
    dsimp only
    rw [hadd]
    dsimp only
    rw [countIndexAdds_cons_upsert]
    exact countIndexAdds_open env p
  · intro env2 f2 hfs2 hif2 hr2 hc2
    have hh2 : compute_file_hash env2 p = some (fileDigest []) := by
      rw [compute_file_hash_eq env2 p f2 hfs2 hif2 hr2, hc2]
    exact process_unchanged env2 _ p f2 f.mtime _ hfs2 hh2 hrec1

theorem C10_empty_file_tracked_never_indexed_witness :
    (open_file envEmpty "/w/empty.txt").1 = some "" ∧
    (add_to_vector_db envEmpty state0.index "/w/empty.txt").2.1 = false ∧
    (process envEmpty state0 "/w/empty.txt").1.records "/w/empty.txt" =
      some (4, fileDigest []) ∧
    (process envEmpty state0 "/w/empty.txt").1.index = state0.index ∧
    countIndexAdds (process envEmpty state0 "/w/empty.txt").2 = 0 ∧
    process envEmpty (process envEmpty state0 "/w/empty.txt").1
      "/w/empty.txt" = ((process envEmpty state0 "/w/empty.txt").1, []) := by
  obtain ⟨h1, h2, h3, h4, h5, h6⟩ := C10_empty_file_tracked_never_indexed
    envEmpty state0 "/w/empty.txt" emptyEntry rfl rfl rfl rfl rfl rfl
  exact ⟨h1, h2, h3, h4, h5, h6 envEmpty emptyEntry rfl rfl rfl rfl⟩

end AiCook
